import Mathlib

/-
Verification development for the Report-Generation pipeline
(src/data.py and src/stream.py).

The two scripts share an identical loader (load_and_select_columns),
classifier (split_by_item_prefix) and projector (create_monthly_projection);
they differ only in the renderer (save_to_excel in data.py writes a row-level
highlight format, generate_excel in stream.py rewrites every cell of an
overdue row).  Each Python function is embedded below as an executable Lean
definition over explicit data types; `datetime.today().date()` is modelled by
an explicit `today : Date` parameter captured once per run, exactly as the
scripts read the wall clock once at module load.
-/

namespace ReportGen

/-- A calendar date as produced by `datetime.date`: year, month, day.
Python's `date` constructor guarantees `1 ≤ month ≤ 12`; that invariant is
carried separately as `Date.valid` and assumed where a proof needs it. -/
structure Date where
  year : Nat
  month : Nat
  day : Nat
deriving DecidableEq

/-- Python's `<` on `datetime.date`: lexicographic on (year, month, day). -/
def Date.lt (a b : Date) : Bool :=
  (a.year < b.year) ||
    (a.year == b.year &&
      ((a.month < b.month) || (a.month == b.month && a.day < b.day)))

/-- The invariant `datetime.date` enforces on the month component. -/
def Date.valid (d : Date) : Prop := 1 ≤ d.month ∧ d.month ≤ 12

instance (d : Date) : Decidable d.valid :=
  inferInstanceAs (Decidable (1 ≤ d.month ∧ d.month ≤ 12))

/-- A spreadsheet cell value as pandas sees it: missing (NaN/None/NaT),
positive or negative infinity, a date, a timestamp, a number, or text. -/
inductive CellValue
  | missing
  | inf
  | negInf
  | dateVal (d : Date)
  | datetimeVal (d : Date)
  | numVal (n : Int)
  | strVal (s : String)
deriving DecidableEq

/-- Zero-padding to two digits, as in `str(datetime.date)`. -/
def pad2 (n : Nat) : String :=
  if n < 10 then "0" ++ toString n else toString n

/-- Python's `str(...)` on a cell value, as used by `astype(str)` in
split_by_item_prefix.  A missing value stringifies to "nan". -/
def cellToStr : CellValue → String
  | .missing => "nan"
  | .inf => "inf"
  | .negInf => "-inf"
  | .dateVal d => toString d.year ++ "-" ++ pad2 d.month ++ "-" ++ pad2 d.day
  | .datetimeVal d =>
      toString d.year ++ "-" ++ pad2 d.month ++ "-" ++ pad2 d.day ++ " 00:00:00"
  | .numVal n => toString n
  | .strVal s => s

/-- An order-line record after the loader has normalised it: exactly the 12
selected columns, with `Order Date` and `Dock Date` parsed to calendar dates
(`pd.to_datetime(...).dt.date`) and `Extended Price` numeric-or-missing. -/
structure Row where
  order : CellValue
  line : CellValue
  item : CellValue
  orderDate : Date
  name : CellValue
  itemDescription : CellValue
  customerItem : CellValue
  qtyOrdered : CellValue
  um : CellValue
  unitPrice : CellValue
  extendedPrice : Option Int
  dockDate : Date
deriving DecidableEq

/-- The `Item` field as text: `df['Item'].astype(str)` applied to one row. -/
def itemText (r : Row) : String := cellToStr r.item

/-- The regex extraction `str.extract(r'^(999|NRE|ENG)')` on one string:
all three alternatives have length 3, so the capture succeeds exactly when
the first three characters equal one of them, tried in order. -/
def matchPrefix (s : String) : Option String :=
  if s.take 3 = "999" then some "999"
  else if s.take 3 = "NRE" then some "NRE"
  else if s.take 3 = "ENG" then some "ENG"
  else none

/-- The category keys in the order `groupby` yields them (sorted:
"999" < "ENG" < "NRE"). -/
def categoryKeys : List String := ["999", "ENG", "NRE"]

/-- split_by_item_prefix, result value: the mapping from category to its
table.  A row lands in the group of its extracted prefix; rows whose Item
matches no alternative get NaN in the Category column and are removed by
`dropna`; `groupby` keeps only non-empty groups, in sorted key order,
preserving row order inside each group; the helper Category column is
dropped from each group. -/
def split_by_item_prefix (rows : List Row) : List (String × List Row) :=
  (categoryKeys.map
      (fun c => (c, rows.filter (fun r => matchPrefix (itemText r) == some c)))).filter
    (fun p => !p.2.isEmpty)

/-- A pandas DataFrame as the pipeline sees it: its rows, plus the optional
helper `Category` column that split_by_item_prefix adds in place
(`df['Category'] = ...` mutates the frame that was passed in). -/
structure DataFrame where
  rows : List Row
  categoryCol : Option (List (Option String))
deriving DecidableEq

/-- split_by_item_prefix including its in-place effect on the caller's
DataFrame: the returned mapping, and the argument frame as it is left
afterwards (with the new `Category` column holding the extracted prefix or
a missing value for every row). -/
def splitByItemPrefixDF (df : DataFrame) :
    (List (String × List Row)) × DataFrame :=
  ( split_by_item_prefix df.rows,
    { df with categoryCol := some (df.rows.map (fun r => matchPrefix (itemText r))) })

/-- One row of the projection table: Projected Below, Month, Month #. -/
structure ProjRow where
  projectedBelow : Int
  month : String
  monthNum : Nat
deriving DecidableEq

/-- `strftime('%b')` month abbreviations. -/
def monthAbbrev : Nat → String
  | 1 => "Jan"
  | 2 => "Feb"
  | 3 => "Mar"
  | 4 => "Apr"
  | 5 => "May"
  | 6 => "Jun"
  | 7 => "Jul"
  | 8 => "Aug"
  | 9 => "Sep"
  | 10 => "Oct"
  | 11 => "Nov"
  | 12 => "Dec"
  | _ => ""

/-- The row filter of create_monthly_projection:
`x.month == month_num and x.year == current_date.year` on Dock Date. -/
def monthPred (today : Date) (m : Nat) (r : Row) : Bool :=
  r.dockDate.month == m && r.dockDate.year == today.year

/-- `month_data['Extended Price'].sum()`: pandas skips missing values and
returns 0 on an empty selection. -/
def sumExtended (rows : List Row) : Int :=
  (rows.map (fun r => r.extendedPrice.getD 0)).sum

/-- create_monthly_projection: for each month 1..12 of the captured current
year, the total Extended Price of the rows whose Dock Date falls in that
month of that year, with the `%b - %Y` label. -/
def create_monthly_projection (today : Date) (rows : List Row) : List ProjRow :=
  (List.range 12).map (fun k =>
    { projectedBelow := sumExtended (rows.filter (monthPred today (k + 1))),
      month := monthAbbrev (k + 1) ++ " - " ++ toString today.year,
      monthNum := k + 1 })

/-- One sheet of the source workbook: its column headers and its records,
each record a mapping from column name to the cell it holds there. -/
structure Sheet where
  header : List String
  recs : List (String → CellValue)

/-- The 12 column names the loader selects, exactly as the scripts spell
them (note the header is `U/M`). -/
def requiredColumns : List String :=
  ["Order", "Line", "Item", "Order Date", "Name", "Item Description",
   "Customer Item", "Qty Ordered", "U/M", "Unit Price", "Extended Price",
   "Dock Date"]

/-- `pd.to_datetime(...).dt.date` on one cell: a date or timestamp cell
yields its calendar date (time of day discarded); anything else raises a
parse error. -/
def cellToDate : CellValue → Except String Date
  | .dateVal d => .ok d
  | .datetimeVal d => .ok d
  | _ => .error "ParseError"

/-- `Extended Price` as pandas will later sum it: a number, or missing
(anything non-numeric is treated as missing here). -/
def cellToMoney : CellValue → Option Int
  | .numVal n => some n
  | _ => none

/-- Projection of one raw record onto the 12 selected columns, with the two
date columns parsed: this is the per-row effect of the column selection plus
the two `pd.to_datetime(...).dt.date` assignments. -/
def rowOfRecord (rec : String → CellValue) : Except String Row :=
  match cellToDate (rec "Order Date") with
  | .error e => .error e
  | .ok od =>
      match cellToDate (rec "Dock Date") with
      | .error e => .error e
      | .ok dd =>
          .ok { order := rec "Order", line := rec "Line", item := rec "Item",
                orderDate := od, name := rec "Name",
                itemDescription := rec "Item Description",
                customerItem := rec "Customer Item",
                qtyOrdered := rec "Qty Ordered",
                um := rec "U/M", unitPrice := rec "Unit Price",
                extendedPrice := cellToMoney (rec "Extended Price"),
                dockDate := dd }

/-- Parse every record of a sheet, stopping at the first parse failure. -/
def parseRows : List (String → CellValue) → Except String (List Row)
  | [] => .ok []
  | rec :: rest =>
      match rowOfRecord rec with
      | .error e => .error e
      | .ok r =>
          match parseRows rest with
          | .error e => .error e
          | .ok rs => .ok (r :: rs)

/-- Processing of one sheet inside load_and_select_columns:
`sheet_df[[...]]` raises a KeyError — the spec's SchemaError — exactly when
a required column is absent; otherwise the rows are projected and their
dates parsed. -/
def selectSheet (s : Sheet) : Except String (List Row) :=
  if requiredColumns.all (fun c => s.header.contains c) then parseRows s.recs
  else .error "SchemaError"

/-- load_and_select_columns: every sheet is cleaned in order and the results
are concatenated into one re-indexed table (`pd.concat(..., ignore_index=True)`). -/
def load_and_select_columns : List Sheet → Except String (List Row)
  | [] => .ok []
  | s :: rest =>
      match selectSheet s with
      | .error e => .error e
      | .ok a =>
          match load_and_select_columns rest with
          | .error e => .error e
          | .ok b => .ok (a ++ b)

/-- A cell as it ends up written in the output workbook: its value, whether
it carries the red `#FFC7CE` background fill, and whether it was written
with an explicit date number format. -/
structure WrittenCell where
  value : CellValue
  fill : Bool
  dateFormat : Bool
deriving DecidableEq

/-- The per-cell rewrite generate_excel performs on a row whose Dock Date is
overdue: missing or infinite values become an empty cell with the red fill;
timestamps and dates are rewritten with the red date format
(`write_datetime`, value preserved); every other value is rewritten
unchanged with the red fill. -/
def writeOverdueCell (v : CellValue) : WrittenCell :=
  match v with
  | .missing => { value := .strVal "", fill := true, dateFormat := false }
  | .inf => { value := .strVal "", fill := true, dateFormat := false }
  | .negInf => { value := .strVal "", fill := true, dateFormat := false }
  | .datetimeVal d => { value := .datetimeVal d, fill := true, dateFormat := true }
  | .dateVal d => { value := .dateVal d, fill := true, dateFormat := true }
  | w => { value := w, fill := true, dateFormat := false }

/-- A cell of a non-overdue row is left exactly as `df.to_excel` wrote it:
value unchanged, no fill, dates with the default date format. -/
def writePlainCell (v : CellValue) : WrittenCell :=
  match v with
  | .dateVal d => { value := .dateVal d, fill := false, dateFormat := true }
  | .datetimeVal d => { value := .datetimeVal d, fill := false, dateFormat := true }
  | w => { value := w, fill := false, dateFormat := false }

/-- One row of a category table laid out in the sheet's column order, as
`df.iloc[i]` enumerates it. -/
def Row.cells (r : Row) : List CellValue :=
  [r.order, r.line, r.item, .dateVal r.orderDate, r.name, r.itemDescription,
   r.customerItem, r.qtyOrdered, r.um, r.unitPrice,
   (match r.extendedPrice with | some n => .numVal n | none => .missing),
   .dateVal r.dockDate]

/-- One data-sheet row as generate_excel leaves it: rewritten cell by cell
with the red formats when `dock_date < current_date`, untouched otherwise. -/
def renderDataRow (today : Date) (r : Row) : List WrittenCell :=
  if Date.lt r.dockDate today then r.cells.map writeOverdueCell
  else r.cells.map writePlainCell

/-- The output workbook of generate_excel, reduced to what the claims are
about: the data sheets (cells as written), the projection sheets, and
whether the ENG chart sheet was built (`if 'ENG' in original_dfs`). -/
structure Workbook where
  dataSheets : List (String × List (List WrittenCell))
  projSheets : List (String × List ProjRow)
  engCharts : Bool

/-- generate_excel (stream.py): per category a `<cat>_Data` sheet with the
overdue rewrite and a `<cat>_Projection` sheet; the ENG chart sheet is added
only when the ENG category is present in the mapping. -/
def generate_excel (today : Date) (tables : List (String × List Row))
    (projections : List (String × List ProjRow)) : Workbook :=
  { dataSheets :=
      tables.map (fun p => (p.1 ++ "_Data", p.2.map (renderDataRow today))),
    projSheets :=
      tables.map (fun p => (p.1 ++ "_Projection", (projections.lookup p.1).getD [])),
    engCharts := tables.any (fun p => p.1 == "ENG") }

/-- The output workbook of save_to_excel (data.py), reduced to what the
claims are about: per category the data sheet rows, each tagged with
whether `set_row` gave it the red row format, and the projection sheets. -/
structure WorkbookRows where
  dataSheets : List (String × List (Bool × Row))
  projSheets : List (String × List ProjRow)

/-- save_to_excel (data.py): per category a `<cat>_Data` sheet whose row i
gets the red row format exactly when `dock_date < current_date`, and a
`<cat>_Projection` sheet. -/
def save_to_excel (today : Date) (tables : List (String × List Row))
    (projections : List (String × List ProjRow)) : WorkbookRows :=
  { dataSheets :=
      tables.map (fun p =>
        (p.1 ++ "_Data", p.2.map (fun r => (Date.lt r.dockDate today, r)))),
    projSheets :=
      tables.map (fun p => (p.1 ++ "_Projection", (projections.lookup p.1).getD [])) }

/-- The aggregation pipeline as both scripts run it: load, classify, then
project each category table, all against the one captured current date. -/
def runPipeline (today : Date) (sheets : List Sheet) :
    Except String ((List (String × List Row)) × (List (String × List ProjRow))) := do
  let full ← load_and_select_columns sheets
  let cats := split_by_item_prefix full
  .ok (cats, cats.map (fun p => (p.1, create_monthly_projection today p.2)))

/-! Concrete sample data, used to instantiate the theorems below. -/

/-- A captured current date, as in the spec's worked example. -/
def sampleDate : Date := ⟨2025, 6, 1⟩

/-- The spec's worked example row: Item "ENG-100", Dock Date 2024-01-01,
Extended Price 500. -/
def engRow : Row :=
  { order := .numVal 1, line := .numVal 1, item := .strVal "ENG-100",
    orderDate := ⟨2024, 1, 1⟩, name := .strVal "Acme",
    itemDescription := .strVal "widget", customerItem := .missing,
    qtyOrdered := .numVal 2, um := .strVal "EA", unitPrice := .numVal 250,
    extendedPrice := some 500, dockDate := ⟨2024, 1, 1⟩ }

/-- A row whose Item matches no category. -/
def xyzRow : Row := { engRow with item := .strVal "XYZ1" }

/-- A row whose Item cell is missing. -/
def nanRow : Row := { engRow with item := .missing }

/-- A row dock-dated inside the sample current year. -/
def marRow : Row :=
  { engRow with dockDate := ⟨2025, 3, 10⟩, extendedPrice := some 250 }

/-- First projection row of an all-empty projection for the sample date. -/
def projJan : ProjRow := { projectedBelow := 0, month := "Jan - 2025", monthNum := 1 }

/-- A raw record holding the example row's cells under their column names. -/
def sampleRec : String → CellValue := fun c =>
  if c = "Item" then .strVal "ENG-100"
  else if c = "Order Date" then .dateVal ⟨2024, 1, 1⟩
  else if c = "Dock Date" then .dateVal ⟨2024, 1, 1⟩
  else if c = "Extended Price" then .numVal 500
  else .strVal "x"

/-- A well-formed one-record sheet carrying exactly the required headers. -/
def sampleSheet : Sheet := { header := requiredColumns, recs := [sampleRec] }

/-! Shared helper lemmas. -/

/-- Every table of the classifier's output is the filter of the input by its
category. -/
theorem mem_split {rows : List Row} {c : String} {tbl : List Row}
    (h : (c, tbl) ∈ split_by_item_prefix rows) :
    tbl = rows.filter (fun r => matchPrefix (itemText r) == some c) := by
  unfold split_by_item_prefix at h
  have h1 := List.mem_of_mem_filter h
  obtain ⟨c0, _, heq⟩ := List.mem_map.mp h1
  obtain ⟨hc, ht⟩ := Prod.mk.injEq .. ▸ heq
  subst hc
  exact ht.symm

/-- Sum of a pointwise sum of integer maps. -/
theorem list_sum_map_add {α : Type} (l : List α) (f g : α → Int) :
    (l.map (fun a => f a + g a)).sum = (l.map f).sum + (l.map g).sum := by
  induction l with
  | nil => simp
  | cons a l ih => simp [ih]; ring

/-- sumExtended over a filtered cons. -/
theorem sumExtended_filter_cons (p : Row → Bool) (r : Row) (rs : List Row) :
    sumExtended ((r :: rs).filter p) =
      (if p r then r.extendedPrice.getD 0 else 0) + sumExtended (rs.filter p) := by
  by_cases h : p r <;> simp [sumExtended, List.filter_cons, h]

/-- A month between 1 and 12 hits exactly one of the twelve buckets. -/
theorem sum_ite_month (m : Nat) (x : Int) (h1 : 1 ≤ m) (h2 : m ≤ 12) :
    ((List.range 12).map (fun k => if m = k + 1 then x else 0)).sum = x := by
  interval_cases m <;> simp [List.range_succ]

/-! Claim theorems. -/

/-- C1: the category assigned by the classifier is a pure function of the
Item text's first three characters tested against the fixed set
{"999", "NRE", "ENG"} (first match wins), and a row whose Item matches no
alternative appears in no category table of the classifier's output. -/
theorem C1_classifier_prefix_pure :
    (∀ s t : String, s.take 3 = t.take 3 → matchPrefix s = matchPrefix t) ∧
    (∀ s c, matchPrefix s = some c → c ∈ categoryKeys ∧ s.take 3 = c) ∧
    (∀ (rows : List Row) (r : Row), matchPrefix (itemText r) = none →
      ∀ c tbl, (c, tbl) ∈ split_by_item_prefix rows → r ∉ tbl) := by
  refine ⟨?_, ?_, ?_⟩
  · intro s t h
    unfold matchPrefix
    rw [h]
  · intro s c h
    unfold matchPrefix at h
    split at h
    · cases h; constructor <;> simp_all [categoryKeys]
    · split at h
      · cases h; constructor <;> simp_all [categoryKeys]
      · split at h
        · cases h; constructor <;> simp_all [categoryKeys]
        · cases h
  · intro rows r hnone c tbl hmem hr
    rw [mem_split hmem] at hr
    have := List.of_mem_filter hr
    rw [hnone] at this
    simp at this

/-- Witness for C1 at concrete inputs: two items agreeing on their first
three characters classify alike, and the unmatched row "XYZ1" is absent
from the ENG table produced from [engRow, xyzRow]. -/
theorem C1_classifier_prefix_pure_witness :
    matchPrefix "ENG-100" = matchPrefix "ENG-200" ∧ xyzRow ∉ [engRow] :=
  ⟨C1_classifier_prefix_pure.1 "ENG-100" "ENG-200" (by decide),
   C1_classifier_prefix_pure.2.2 [engRow, xyzRow] xyzRow (by decide)
     "ENG" [engRow] (by decide)⟩

/-- C9: split_by_item_prefix is not side-effect-free on its input: the
DataFrame passed in leaves the call with a new Category column holding the
extracted prefix or a missing value per row, so the loader's output
observed after classification differs from what it was before. -/
theorem C9_split_mutates_input (rows : List Row) :
    (splitByItemPrefixDF ⟨rows, none⟩).2 ≠ (⟨rows, none⟩ : DataFrame) ∧
    (splitByItemPrefixDF ⟨rows, none⟩).2.categoryCol =
      some (rows.map (fun r => matchPrefix (itemText r))) := by
  constructor
  · intro h
    have := congrArg DataFrame.categoryCol h
    simp [splitByItemPrefixDF] at this
  · rfl

/-- C10: a row with a missing Item raises nothing: the value is coerced to
the text "nan", which matches no category alternative, so the row is
excluded from every category table. -/
theorem C10_missing_item_dropped (rows : List Row) (r : Row)
    (h : r.item = .missing) :
    itemText r = "nan" ∧ matchPrefix (itemText r) = none ∧
    ∀ c tbl, (c, tbl) ∈ split_by_item_prefix rows → r ∉ tbl := by
  have hs : itemText r = "nan" := by rw [itemText, h]; rfl
  refine ⟨hs, by rw [hs]; decide, ?_⟩
  intro c tbl hmem hr
  rw [mem_split hmem] at hr
  have := List.of_mem_filter hr
  rw [hs, show matchPrefix "nan" = none from by decide] at this
  simp at this

/-- Witness for C10: the missing-Item row nanRow stringifies to "nan" and is
absent from the ENG table produced from [engRow, nanRow]. -/
theorem C10_missing_item_dropped_witness :
    itemText nanRow = "nan" ∧ nanRow ∉ [engRow] :=
  ⟨(C10_missing_item_dropped [engRow, nanRow] nanRow rfl).1,
   (C10_missing_item_dropped [engRow, nanRow] nanRow rfl).2.2
     "ENG" [engRow] (by decide)⟩

/-- C3: for every input table the projection has exactly 12 rows, one per
month 1..12 in increasing order, and a month with no matching rows has
total 0. -/
theorem C3_projection_shape (today : Date) (rows : List Row) :
    (create_monthly_projection today rows).map (fun p => p.monthNum) =
      [1, 2, 3, 4, 5, 6, 7, 8, 9, 10, 11, 12] ∧
    ∀ pr ∈ create_monthly_projection today rows,
      rows.filter (monthPred today pr.monthNum) = [] → pr.projectedBelow = 0 := by
  constructor
  · rfl
  · intro pr hpr hfilter
    obtain ⟨k, _, rfl⟩ := List.mem_map.mp hpr
    simp only [create_monthly_projection] at hfilter ⊢
    rw [hfilter]
    rfl

/-- Witness for C3: the all-zero January row belongs to the projection of
the empty table and its total is 0. -/
theorem C3_projection_shape_witness : projJan.projectedBelow = 0 :=
  (C3_projection_shape sampleDate []).2 projJan (by decide) (by decide)

/-- The twelve monthly buckets together catch exactly the current-year rows. -/
theorem proj_sum_aux (today : Date) :
    ∀ (rows : List Row), (∀ r ∈ rows, r.dockDate.valid) →
      ((List.range 12).map
          (fun k => sumExtended (rows.filter (monthPred today (k + 1))))).sum =
        sumExtended (rows.filter (fun r => r.dockDate.year == today.year)) := by
  intro rows
  induction rows with
  | nil => intro _; simp [sumExtended]
  | cons r rs ih =>
      intro hval
      have hrs : ∀ q ∈ rs, q.dockDate.valid :=
        fun q hq => hval q (List.mem_cons_of_mem _ hq)
      have hr : r.dockDate.valid := hval r (List.mem_cons_self _ _)
      simp only [sumExtended_filter_cons]
      rw [list_sum_map_add, ih hrs]
      congr 1
      by_cases hy : r.dockDate.year = today.year
      · simp only [monthPred, hy, beq_self_eq_true, Bool.and_true, beq_iff_eq, if_pos]
        exact sum_ite_month r.dockDate.month (r.extendedPrice.getD 0) hr.1 hr.2
      · simp [monthPred, hy]

/-- C2: the sum of the twelve monthly totals equals the sum of Extended
Price over exactly the rows whose Dock Date falls in the captured current
year; rows dock-dated in any other year reach none of the twelve buckets. -/
theorem C2_projection_totals (today : Date) (rows : List Row)
    (hval : ∀ r ∈ rows, r.dockDate.valid) :
    ((create_monthly_projection today rows).map (fun p => p.projectedBelow)).sum =
      sumExtended (rows.filter (fun r => r.dockDate.year == today.year)) := by
  rw [create_monthly_projection, List.map_map]
  exact proj_sum_aux today rows hval

/-- Witness for C2 on a two-row table: one row dock-dated 2024, one 2025,
current year 2025 — the twelve totals sum to the 2025 row's price alone. -/
theorem C2_projection_totals_witness :
    ((create_monthly_projection sampleDate [engRow, marRow]).map
        (fun p => p.projectedBelow)).sum =
      sumExtended ([engRow, marRow].filter
        (fun r => r.dockDate.year == sampleDate.year)) :=
  C2_projection_totals sampleDate [engRow, marRow] (by decide)

/-- C4: in the rendered workbook a data-sheet row carries the red row
format exactly when its Dock Date is strictly earlier than the captured
current date, whatever sheet (category) it is on. -/
theorem C4_overdue_row_flag (today : Date) (tables : List (String × List Row))
    (projections : List (String × List ProjRow)) :
    (∀ s frows, (s, frows) ∈ (save_to_excel today tables projections).dataSheets →
      ∀ b r, (b, r) ∈ frows → (b = true ↔ Date.lt r.dockDate today = true)) ∧
    (∀ (r : Row) w, w ∈ renderDataRow today r →
      w.fill = Date.lt r.dockDate today) := by
  constructor
  · intro s frows h b r hbr
    have h2 : (s, frows) ∈ tables.map
        (fun p => (p.1 ++ "_Data", p.2.map (fun q => (Date.lt q.dockDate today, q)))) := h
    obtain ⟨p, -, heq⟩ := List.mem_map.mp h2
    have hfr : p.2.map (fun q => (Date.lt q.dockDate today, q)) = frows :=
      congrArg Prod.snd heq
    rw [← hfr] at hbr
    obtain ⟨q, -, hq⟩ := List.mem_map.mp hbr
    have hb : Date.lt q.dockDate today = b := congrArg Prod.fst hq
    have hr : q = r := congrArg Prod.snd hq
    rw [← hb, ← hr]
  · intro r w hw
    unfold renderDataRow at hw
    by_cases h : Date.lt r.dockDate today = true
    · rw [if_pos h] at hw
      obtain ⟨v, -, rfl⟩ := List.mem_map.mp hw
      rw [h]
      cases v <;> rfl
    · rw [if_neg h] at hw
      obtain ⟨v, -, rfl⟩ := List.mem_map.mp hw
      rw [Bool.not_eq_true] at h
      rw [h]
      cases v <;> rfl

/-- Witness for C4: the 2024-dock-dated example row on the ENG data sheet is
flagged, and the flag agrees with the date comparison against 2025-06-01. -/
theorem C4_overdue_row_flag_witness :
    (true = true ↔ Date.lt engRow.dockDate sampleDate = true) :=
  (C4_overdue_row_flag sampleDate [("ENG", [engRow])] []).1 "ENG_Data"
    [(true, engRow)] (by decide) true engRow (by decide)

/-- C6: on an overdue row generate_excel rewrites every cell through
writeOverdueCell, and writeOverdueCell always sets the red fill, blanks
missing and infinite values, keeps date and timestamp values with the
explicit date format, and preserves every other value. -/
theorem C6_overdue_cells (today : Date) (r : Row)
    (h : Date.lt r.dockDate today = true) :
    renderDataRow today r = r.cells.map writeOverdueCell ∧
    ∀ v, (writeOverdueCell v).fill = true ∧
      ((v = .missing ∨ v = .inf ∨ v = .negInf) →
        (writeOverdueCell v).value = .strVal "") ∧
      (∀ d, v = .dateVal d → (writeOverdueCell v).value = .dateVal d ∧
        (writeOverdueCell v).dateFormat = true) ∧
      (∀ d, v = .datetimeVal d → (writeOverdueCell v).value = .datetimeVal d ∧
        (writeOverdueCell v).dateFormat = true) ∧
      (¬(v = .missing ∨ v = .inf ∨ v = .negInf) →
        (writeOverdueCell v).value = v) := by
  constructor
  · simp [renderDataRow, h]
  · intro v
    cases v <;> simp [writeOverdueCell]

/-- Witness for C6: the example row is overdue on 2025-06-01; its rendered
cells go through writeOverdueCell, and a missing cell is blanked while its
fill stays on. -/
theorem C6_overdue_cells_witness :
    renderDataRow sampleDate engRow = engRow.cells.map writeOverdueCell ∧
    (writeOverdueCell .missing).value = .strVal "" ∧
    (writeOverdueCell .missing).fill = true :=
  ⟨(C6_overdue_cells sampleDate engRow (by decide)).1,
   ((C6_overdue_cells sampleDate engRow (by decide)).2 .missing).2.1 (Or.inl rfl),
   ((C6_overdue_cells sampleDate engRow (by decide)).2 .missing).1⟩

/-- C7: the pipeline is deterministic — two runs over the same sheets with
the same captured current date return the same category tables and the same
projection tables. -/
theorem C7_pipeline_deterministic (today : Date) (sheets : List Sheet)
    (out1 out2 :
      Except String ((List (String × List Row)) × (List (String × List ProjRow))))
    (h1 : runPipeline today sheets = out1) (h2 : runPipeline today sheets = out2) :
    out1 = out2 :=
  h1.symm.trans h2

/-- Witness for C7 at the one-sheet sample workbook. -/
theorem C7_pipeline_deterministic_witness :
    runPipeline sampleDate [sampleSheet] = runPipeline sampleDate [sampleSheet] :=
  C7_pipeline_deterministic sampleDate [sampleSheet]
    (runPipeline sampleDate [sampleSheet]) (runPipeline sampleDate [sampleSheet])
    rfl rfl

/-- C8: when no row matches any category the run still goes through: the
category mapping is empty, so the projection mapping is empty (and the
projector on an empty table yields twelve zero totals), and generate_excel
skips the ENG chart sheet because ENG is absent from the mapping. -/
theorem C8_empty_categories (today : Date) (rows : List Row)
    (projections : List (String × List ProjRow))
    (h : ∀ r ∈ rows, matchPrefix (itemText r) = none) :
    split_by_item_prefix rows = [] ∧
    (( split_by_item_prefix rows).map
        (fun p => (p.1, create_monthly_projection today p.2))) = [] ∧
    (generate_excel today ( split_by_item_prefix rows) projections).engCharts
      = false ∧
    ∀ pr ∈ create_monthly_projection today [], pr.projectedBelow = 0 := by
  have hsplit : split_by_item_prefix rows = [] := by
    have hf : ∀ c, rows.filter (fun r => matchPrefix (itemText r) == some c) = [] := by
      intro c
      refine List.filter_eq_nil_iff.mpr ?_
      intro r hr
      simp [h r hr]
    simp [ split_by_item_prefix, categoryKeys, hf]
  refine ⟨hsplit, by rw [hsplit]; rfl, by rw [hsplit]; rfl, ?_⟩
  intro pr hpr
  obtain ⟨k, _, rfl⟩ := List.mem_map.mp hpr
  rfl

/-- Witness for C8 on the one-row table whose Item "XYZ1" matches nothing. -/
theorem C8_empty_categories_witness :
    split_by_item_prefix [xyzRow] = [] ∧
    (generate_excel sampleDate ( split_by_item_prefix [xyzRow]) []).engCharts
      = false :=
  ⟨(C8_empty_categories sampleDate [xyzRow] [] (by decide)).1,
   (C8_empty_categories sampleDate [xyzRow] [] (by decide)).2.2.1⟩

/-- cellToDate only ever fails with a parse error. -/
theorem cellToDate_error {v : CellValue} {e : String}
    (h : cellToDate v = .error e) : e = "ParseError" := by
  cases v <;> simp_all [cellToDate]

/-- rowOfRecord only ever fails with a parse error. -/
theorem rowOfRecord_error {rec : String → CellValue} {e : String}
    (h : rowOfRecord rec = .error e) : e = "ParseError" := by
  unfold rowOfRecord at h
  cases hod : cellToDate (rec "Order Date") with
  | error e1 =>
      rw [hod] at h
      cases h
      exact cellToDate_error hod
  | ok od =>
      rw [hod] at h
      cases hdd : cellToDate (rec "Dock Date") with
      | error e2 =>
          rw [hdd] at h
          cases h
          exact cellToDate_error hdd
      | ok dd =>
          rw [hdd] at h
          cases h

/-- Row parsing never raises the schema error. -/
theorem parseRows_ne_schema : ∀ recs, parseRows recs ≠ .error "SchemaError" := by
  intro recs
  induction recs with
  | nil => simp [parseRows]
  | cons rec rest ih =>
      intro h
      unfold parseRows at h
      cases hr : rowOfRecord rec with
      | error e1 =>
          rw [hr] at h
          cases h
          exact absurd (rowOfRecord_error hr) (by decide)
      | ok row =>
          rw [hr] at h
          cases hrest : parseRows rest with
          | error e2 =>
              rw [hrest] at h
              cases h
              exact ih hrest
          | ok rows =>
              rw [hrest] at h
              cases h

/-- Row parsing succeeds when every record's dates parse. -/
theorem parseRows_ok : ∀ recs, (∀ rec ∈ recs, ∃ r, rowOfRecord rec = .ok r) →
    ∃ rows, parseRows recs = .ok rows := by
  intro recs
  induction recs with
  | nil => exact fun _ => ⟨[], rfl⟩
  | cons rec rest ih =>
      intro h
      obtain ⟨r, hr⟩ := h rec (List.mem_cons_self _ _)
      obtain ⟨rows, hrows⟩ := ih (fun q hq => h q (List.mem_cons_of_mem _ hq))
      refine ⟨r :: rows, ?_⟩
      unfold parseRows
      rw [hr, hrows]

/-- Per sheet, the schema error fires exactly when a required column is
absent. -/
theorem selectSheet_schema_iff (s : Sheet) :
    selectSheet s = .error "SchemaError" ↔
      ¬ ∀ c ∈ requiredColumns, s.header.contains c = true := by
  unfold selectSheet
  by_cases hall : requiredColumns.all (fun c => s.header.contains c)
  · rw [if_pos hall]
    rw [List.all_eq_true] at hall
    constructor
    · intro h
      exact absurd h (parseRows_ne_schema _)
    · intro hn
      exact absurd hall hn
  · rw [if_neg hall]
    rw [List.all_eq_true] at hall
    exact ⟨fun _ => hall, fun _ => rfl⟩

/-- A schema failure of the whole load names a sheet with a missing
required column. -/
theorem load_schema_imp : ∀ sheets,
    load_and_select_columns sheets = .error "SchemaError" →
      ∃ t ∈ sheets, ¬ ∀ c ∈ requiredColumns, t.header.contains c = true := by
  intro sheets
  induction sheets with
  | nil => intro h; cases h
  | cons s rest ih =>
      intro h
      unfold load_and_select_columns at h
      cases hs : selectSheet s with
      | error e =>
          rw [hs] at h
          cases h
          exact ⟨s, List.mem_cons_self _ _, (selectSheet_schema_iff s).mp hs⟩
      | ok a =>
          rw [hs] at h
          cases hl : load_and_select_columns rest with
          | error e2 =>
              rw [hl] at h
              cases h
              obtain ⟨t, ht, hmiss⟩ := ih hl
              exact ⟨t, List.mem_cons_of_mem _ ht, hmiss⟩
          | ok b =>
              rw [hl] at h
              cases h

/-- When every record parses, a missing required column anywhere forces the
schema error. -/
theorem load_schema_of_missing : ∀ sheets,
    (∀ t ∈ sheets, ∀ rec ∈ t.recs, ∃ r, rowOfRecord rec = .ok r) →
    (∃ t ∈ sheets, ¬ ∀ c ∈ requiredColumns, t.header.contains c = true) →
      load_and_select_columns sheets = .error "SchemaError" := by
  intro sheets
  induction sheets with
  | nil => intro _ h; obtain ⟨t, ht, -⟩ := h; cases ht
  | cons s rest ih =>
      intro hparse hmiss
      unfold load_and_select_columns
      by_cases hall : ∀ c ∈ requiredColumns, s.header.contains c = true
      · have hs : ∃ rows, selectSheet s = .ok rows := by
          unfold selectSheet
          rw [if_pos (List.all_eq_true.mpr hall)]
          exact parseRows_ok s.recs (hparse s (List.mem_cons_self _ _))
        obtain ⟨rows, hrows⟩ := hs
        rw [hrows]
        have hrest : ∃ t ∈ rest, ¬ ∀ c ∈ requiredColumns,
            t.header.contains c = true := by
          obtain ⟨t, ht, hm⟩ := hmiss
          cases List.mem_cons.mp ht with
          | inl heq => exact absurd hall (heq ▸ hm)
          | inr hmem => exact ⟨t, hmem, hm⟩
        rw [ih (fun t ht => hparse t (List.mem_cons_of_mem _ ht)) hrest]
      · have hs : selectSheet s = .error "SchemaError" :=
          (selectSheet_schema_iff s).mpr hall
        rw [hs]

/-- The 12 column names exactly as §3 of the spec's data model writes them:
it says "Unit of Measure" where the scripts select the header "U/M". -/
def specDataModelColumns : List String :=
  ["Order", "Line", "Item", "Order Date", "Name", "Item Description",
   "Customer Item", "Qty Ordered", "Unit of Measure", "Unit Price",
   "Extended Price", "Dock Date"]

/-- An empty sheet whose headers are exactly the spec's data-model names. -/
def specNamedSheet : Sheet := { header := specDataModelColumns, recs := [] }

/-- C5 counterexample: a sheet carrying every column named in the spec's
data model — "Unit of Measure" included — still makes the loader fail with
the schema error, because the scripts require the header "U/M"; so the
loader does not fail-iff-a-data-model-named-column-is-absent. -/
theorem C5_counterexample :
    specNamedSheet.header = specDataModelColumns ∧
    specDataModelColumns.all (fun c => specNamedSheet.header.contains c) = true ∧
    load_and_select_columns [specNamedSheet] = .error "SchemaError" :=
  ⟨rfl, by decide, rfl⟩

/-- C5 (amended): the loader reads exactly the 12 columns the scripts name
(with header "U/M", not "Unit of Measure"): the projected row depends on no
other column; a sheet's selection fails with the schema error iff one of
those columns is absent from it; and — when every record's dates parse — a
whole run fails with the schema error iff some sheet lacks one of them. -/
theorem C5_loader_schema (sheets : List Sheet) (s : Sheet) :
    (∀ rec rec2 : String → CellValue,
        (∀ c ∈ requiredColumns, rec c = rec2 c) →
          rowOfRecord rec = rowOfRecord rec2) ∧
    (selectSheet s = .error "SchemaError" ↔
      ¬ ∀ c ∈ requiredColumns, s.header.contains c = true) ∧
    ((∀ t ∈ sheets, ∀ rec ∈ t.recs, ∃ r, rowOfRecord rec = .ok r) →
      (load_and_select_columns sheets = .error "SchemaError" ↔
        ∃ t ∈ sheets, ¬ ∀ c ∈ requiredColumns, t.header.contains c = true)) := by
  refine ⟨?_, selectSheet_schema_iff s, ?_⟩
  · intro rec rec2 hagree
    have h1 := hagree "Order" (by decide)
    have h2 := hagree "Line" (by decide)
    have h3 := hagree "Item" (by decide)
    have h4 := hagree "Order Date" (by decide)
    have h5 := hagree "Name" (by decide)
    have h6 := hagree "Item Description" (by decide)
    have h7 := hagree "Customer Item" (by decide)
    have h8 := hagree "Qty Ordered" (by decide)
    have h9 := hagree "U/M" (by decide)
    have h10 := hagree "Unit Price" (by decide)
    have h11 := hagree "Extended Price" (by decide)
    have h12 := hagree "Dock Date" (by decide)
    unfold rowOfRecord
    rw [h1, h2, h3, h4, h5, h6, h7, h8, h9, h10, h11, h12]
  · intro hparse
    exact ⟨load_schema_imp sheets, load_schema_of_missing sheets hparse⟩

/-- A record agreeing with sampleRec on every required column but differing
elsewhere. -/
def paddedRec : String → CellValue := fun c =>
  if c = "Some Other Column" then .numVal 7 else sampleRec c

/-- Witness for C5 at concrete records: two records that agree on the 12
required columns project to the same row, however they differ elsewhere. -/
theorem C5_loader_schema_witness :
    rowOfRecord sampleRec = rowOfRecord paddedRec :=
  (C5_loader_schema [sampleSheet] sampleSheet).1 sampleRec paddedRec (by decide)

end ReportGen
